import Mathlib

/-!
Shallow embedding of the core of the `nestjs-unblocker-microservice`
repository (file `src/unblocker/unblocker.controller.ts`, service class
`UnblockerService`), together with theorems settling the frozen claims
about its natural-language specification.

The embedding models:
  * the static configuration (`NETWORK_IDLE_TIMEOUT`, `PXSCRIPT_PATTERN`,
    `BLOCKED_TRACKING_DOMAINS`) and the result record `PageContentResult`;
  * the request-interception decision installed by
    `page.on(request, ...)` (lines 189-201 of the source);
  * the browser-pool acquisition `getBrowser` (lines 126-154);
  * the fetch orchestration `getPageContent` (lines 161-262), as a function
    of an environment (`FetchEnv`) recording the outcome of every external
    browser-control call the method awaits, returning both the outcome
    (a structured result, or an uncaught exception) and a resource trace
    counting context/page creations and page closes.
-/

/-! ## String primitives (JS `String.prototype.includes`, regex `test`) -/

/-- `litPrefixL needle hay` is true when `needle` occurs at the very start
of `hay` (list-of-characters version of a literal-prefix test). -/
def litPrefixL : List Char → List Char → Bool
  | [], _ => true
  | _ :: _, [] => false
  | a :: ns, b :: hs => a == b && litPrefixL ns hs

/-- `containsSubL needle hay` is true when `needle` occurs contiguously
anywhere inside `hay`; this is JS `hay.includes(needle)` on char lists. -/
def containsSubL (needle : List Char) : List Char → Bool
  | [] => litPrefixL needle []
  | c :: t => litPrefixL needle (c :: t) || containsSubL needle t

/-- JS `hay.includes(needle)` on Lean strings. -/
def strIncludes (hay needle : String) : Bool :=
  containsSubL needle.toList hay.toList

/-- A character matched by the regex class `[A-Z0-9]` under the `i` flag:
an ASCII letter (either case) or an ASCII digit. -/
def isAlnumAscii (c : Char) : Bool :=
  c.isUpper || c.isLower || c.isDigit

/-- Character comparison under the regex `i` flag: letters compare
case-insensitively, every other character exactly. -/
def eqIgnoreCase (a b : Char) : Bool :=
  a.toLower == b.toLower

/-- Case-insensitive literal-prefix test: the JS `i` flag applies to the
whole pattern, literals included. -/
def litPrefixCI : List Char → List Char → Bool
  | [], _ => true
  | _ :: _, [] => false
  | a :: ns, b :: hs => eqIgnoreCase a b && litPrefixCI ns hs

/-- After the opening `/` of the pattern `\/[A-Z0-9]+\/init\.js`, match one
or more alphanumerics followed by the literal `/init.js`; under the `i`
flag the literal also matches case variants such as `/INIT.JS`. -/
def pxBody : List Char → Bool
  | [] => false
  | c :: rest =>
    isAlnumAscii c && (litPrefixCI ("/init.js".toList) rest || pxBody rest)

/-- Unanchored search for the regex `PXSCRIPT_PATTERN = /\/[A-Z0-9]+\/init\.js/i`
(source line 84): does some position of the list start a match. -/
def pxTestL : List Char → Bool
  | [] => false
  | c :: rest => (c == '/' && pxBody rest) || pxTestL rest

/-- `PXSCRIPT_PATTERN.test(url)` of the source: unanchored, case-insensitive
search for `/` then one or more alphanumerics then `/init.js`, the literal
part matching case-insensitively as the `i` flag dictates. -/
def pxTest (url : String) : Bool :=
  pxTestL url.toList

/-! ## Static configuration of the service -/

/-- `NETWORK_IDLE_TIMEOUT = 60000` (milliseconds), source line 78. -/
def NETWORK_IDLE_TIMEOUT : Nat := 60000

/-- `BLOCKED_TRACKING_DOMAINS`, source lines 87-95. -/
def BLOCKED_TRACKING_DOMAINS : List String :=
  ["google-analytics.com",
   "googletagmanager.com",
   "doubleclick.net",
   "facebook.net",
   "twitter.com",
   "analytics.yahoo.com",
   "adservice.google.com"]

/-- The anti-bot challenge marker string checked in the serialized page
content (`html.includes(px-captcha)`, source line 224). -/
def challengeMarker : String := "px-captcha"

/-- The `@nestjs/common` HTTP status constants used by the service. -/
def HttpStatus.FORBIDDEN : Nat := 403

/-- `HttpStatus.BAD_GATEWAY`. -/
def HttpStatus.BAD_GATEWAY : Nat := 502

/-- `HttpStatus.GATEWAY_TIMEOUT`. -/
def HttpStatus.GATEWAY_TIMEOUT : Nat := 504

/-- `HttpStatus.INTERNAL_SERVER_ERROR`. -/
def HttpStatus.INTERNAL_SERVER_ERROR : Nat := 500

/-- Error message of the no-response branch (source line 214). -/
def noResponseMsg : String :=
  "Navigation failed, no response received from the server."

/-- Error message of the challenge branch (source line 229). -/
def challengeMsg : String :=
  "Bot detection or captcha was triggered."

/-- Error message of the timeout branch (source line 246): the template
literal interpolates `NETWORK_IDLE_TIMEOUT / 1000`. -/
def timeoutMsg : String :=
  "Navigation timed out after " ++ toString (NETWORK_IDLE_TIMEOUT / 1000) ++
    "s. The target page is likely too slow or unresponsive."

/-- Error message of the generic catch branch (source line 255). -/
def internalMsg : String :=
  "An unexpected internal error occurred during page processing. See service logs for details."

/-! ## Request interception (source lines 188-201)

The handler installed by `page.on(request, ...)` reads the request URL and
issues exactly one of `request.abort(aborted)` or `request.continue()`.
-/

/-- The action the interception handler takes on one outgoing request. -/
inductive RequestAction where
  | abort
  | cont
deriving DecidableEq, Repr

/-- The per-request decision of the handler at source lines 189-201:
first the `PXSCRIPT_PATTERN` test, then the tracking-domain substring
scan, otherwise continue. -/
def interceptDecision (requestUrl : String) : RequestAction :=
  if pxTest requestUrl then
    RequestAction.abort
  else if BLOCKED_TRACKING_DOMAINS.any (fun d => strIncludes requestUrl d) then
    RequestAction.abort
  else
    RequestAction.cont

/-- The sequence of `request.*` calls the handler body issues for one
request: each branch of the if/else-if/else performs exactly one call. -/
def handlerCalls (requestUrl : String) : List RequestAction :=
  if pxTest requestUrl then
    [RequestAction.abort]
  else if BLOCKED_TRACKING_DOMAINS.any (fun d => strIncludes requestUrl d) then
    [RequestAction.abort]
  else
    [RequestAction.cont]

/-! ## Browser pool (`getBrowser`, source lines 126-154) -/

/-- A puppeteer `Browser` handle: an identity and its `connected` flag. -/
structure BrowserHandle where
  id : Nat
  connected : Bool
deriving DecidableEq, Repr

/-- Result of one `getBrowser()` call: the handle returned to the caller,
the value of the stored `this.browser` field afterwards, and whether a new
browser process was launched. -/
structure GetBrowserResult where
  returned : BrowserHandle
  stored : Option BrowserHandle
  launched : Bool
deriving DecidableEq, Repr

/-- `getBrowser` (source lines 126-154) as a function of the stored
`this.browser` field and of the handle a launch would yield (`fresh`
stands for the `newBrowser` that `puppeteer.launch` returns; the launch
also registers a disconnect observer, which is not modelled as the claims
only concern the returned/stored handle and whether a launch happened). -/
def getBrowser (stored : Option BrowserHandle) (fresh : BrowserHandle) :
    GetBrowserResult :=
  match stored with
  | some b =>
    if b.connected then
      { returned := b, stored := some b, launched := false }
    else
      { returned := fresh, stored := some fresh, launched := true }
  | none => { returned := fresh, stored := some fresh, launched := true }

/-! ## The fetch orchestration (`getPageContent`, source lines 161-262) -/

/-- The two exception classes the catch block distinguishes:
`TimeoutError` from puppeteer, and everything else. -/
inductive Exn where
  | timeout
  | other
deriving DecidableEq, Repr

/-- The result record `PageContentResult` (source lines 98-103):
`html: string | null`, `status: number`, `error?: string`,
`finalUrl?: string`. -/
structure PageContentResult where
  html : Option String
  status : Nat
  error : Option String
  finalUrl : Option String
deriving DecidableEq, Repr

/-- Environment of one `getPageContent` call: the outcome of every awaited
external browser-control call, in program order.

  * `acquire`, `createContext`, `newPage`: `none` means the call succeeded,
    `some e` means it rejected with exception `e` (these three run before
    the `try` block);
  * `setup`: combined outcome of the awaited configuration steps inside the
    `try` (`setUserAgent`, `setViewport`, `evaluateOnNewDocument`,
    `setRequestInterception`);
  * `goto`: `Except.error e` when `page.goto` rejects, `Except.ok none`
    when it resolves with no response object, `Except.ok (some st)` when it
    resolves with a response of status `st`;
  * `content`: outcome of `page.content()`;
  * `pageUrl`: the string `page.url()` returns (puppeteer types this call
    as returning a string, never null, so it is modelled as total);
  * `requestedUrl`: the `url` argument of the call. -/
structure FetchEnv where
  acquire : Option Exn
  createContext : Option Exn
  newPage : Option Exn
  setup : Option Exn
  goto : Except Exn (Option Nat)
  content : Except Exn String
  pageUrl : String
  requestedUrl : String
deriving Repr

/-- The value of a `page.url()` call: always a string per the puppeteer
type signature, wrapped in `Option` so that the `page.url() ?? url` nullish
coalescing stays visible in the embedding. -/
def pageUrlCall (env : FetchEnv) : Option String :=
  some env.pageUrl

/-- JS nullish coalescing `a ?? b` on an optional string. -/
def nullishCoalesce (a : Option String) (b : String) : String :=
  a.getD b

/-- The catch block (source lines 237-257): a `TimeoutError` maps to 504
with the timeout message, anything else to 500 with the generic message;
both use `page.url() ?? url` as the final URL. -/
def catchClause (env : FetchEnv) (e : Exn) : PageContentResult :=
  match e with
  | Exn.timeout =>
    { html := none
      status := HttpStatus.GATEWAY_TIMEOUT
      error := some timeoutMsg
      finalUrl := some (nullishCoalesce (pageUrlCall env) env.requestedUrl) }
  | Exn.other =>
    { html := none
      status := HttpStatus.INTERNAL_SERVER_ERROR
      error := some internalMsg
      finalUrl := some (nullishCoalesce (pageUrlCall env) env.requestedUrl) }

/-- The `try` block with its `catch` (source lines 166-257): configuration
steps, navigation, then outcome classification; every exception raised
inside is routed to `catchClause`. -/
def tryBody (env : FetchEnv) : PageContentResult :=
  match env.setup with
  | some e => catchClause env e
  | none =>
    match env.goto with
    | Except.error e => catchClause env e
    | Except.ok none =>
      { html := none
        status := HttpStatus.BAD_GATEWAY
        error := some noResponseMsg
        finalUrl := pageUrlCall env }
    | Except.ok (some st) =>
      match env.content with
      | Except.error e => catchClause env e
      | Except.ok html =>
        if strIncludes html challengeMarker || st == 403 then
          { html := some html
            status := HttpStatus.FORBIDDEN
            error := some challengeMsg
            finalUrl := pageUrlCall env }
        else
          { html := some html
            status := st
            error := none
            finalUrl := pageUrlCall env }

/-- The exception the `catch` block receives, if any: the first failing
awaited step inside the `try` block. -/
def tryExn (env : FetchEnv) : Option Exn :=
  match env.setup with
  | some e => some e
  | none =>
    match env.goto with
    | Except.error e => some e
    | Except.ok none => none
    | Except.ok (some _) =>
      match env.content with
      | Except.error e => some e
      | Except.ok _ => none

/-- Whether the `try`/`catch` produces one of the failure-classified
results (challenge 403, no-response 502, timeout 504, internal 500), as
opposed to the success pass-through. -/
def failureBranch (env : FetchEnv) : Bool :=
  match tryExn env with
  | some _ => true
  | none =>
    match env.goto with
    | Except.ok none => true
    | Except.ok (some st) =>
      match env.content with
      | Except.ok html => strIncludes html challengeMarker || st == 403
      | Except.error _ => false
    | Except.error _ => false

/-- How one `getPageContent` call ends: with a structured result, or by
unwinding with an uncaught exception. -/
inductive FetchOutcome where
  | result (r : PageContentResult)
  | raised (e : Exn)
deriving DecidableEq, Repr

/-- Resource accounting for one call: whether `browser.createBrowserContext()`
ran to completion, whether `context.newPage()` did, and how many times
`page.close()` was executed. -/
structure Trace where
  contextCreated : Bool
  pageCreated : Bool
  pageCloses : Nat
deriving DecidableEq, Repr

/-- `getPageContent` (source lines 161-262). `getBrowser()`,
`createBrowserContext()` and `newPage()` run before the `try`, so their
exceptions are not caught and no cleanup runs for them; once the page
exists, the `try`/`catch`/`finally` guarantees `page.close()` runs exactly
once and every exception is converted to a result. -/
def getPageContent (env : FetchEnv) : FetchOutcome × Trace :=
  match env.acquire with
  | some e => (FetchOutcome.raised e, ⟨false, false, 0⟩)
  | none =>
    match env.createContext with
    | some e => (FetchOutcome.raised e, ⟨false, false, 0⟩)
    | none =>
      match env.newPage with
      | some e => (FetchOutcome.raised e, ⟨true, false, 0⟩)
      | none => (FetchOutcome.result (tryBody env), ⟨true, true, 1⟩)

/-! ## Concrete environments used by witnesses and counterexamples -/

/-- A fully successful fetch: status 200, unremarkable content. -/
def envOk : FetchEnv :=
  { acquire := none, createContext := none, newPage := none, setup := none
    goto := Except.ok (some 200)
    content := Except.ok ("<html>ok</html>")
    pageUrl := "https://example.test/ok"
    requestedUrl := "https://example.test/ok" }

/-- A fetch in which `getBrowser()` rejects. -/
def envAcquireFail : FetchEnv :=
  { envOk with acquire := some Exn.other }

/-- A fetch in which `context.newPage()` rejects after the browsing
context was created. -/
def envNewPageFail : FetchEnv :=
  { envOk with newPage := some Exn.other }

/-- A fetch in which navigation resolves with no response object. -/
def envNoResponse : FetchEnv :=
  { envOk with goto := Except.ok none }

/-- A fetch in which `page.goto` rejects with a `TimeoutError`. -/
def envTimeout : FetchEnv :=
  { envOk with goto := Except.error Exn.timeout }

/-- A fetch whose serialized content contains the challenge marker while
the response status is 200. -/
def envChallenge : FetchEnv :=
  { envOk with content := Except.ok ("<html>px-captcha challenge</html>") }

/-- A fetch whose response has status 500 and marker-free content: the
success branch passes the 500 through with no error field. -/
def envPass500 : FetchEnv :=
  { envOk with goto := Except.ok (some 500)
               content := Except.ok ("<html>hello</html>") }

/-- A fetch in which a response was received but `page.content()` rejects. -/
def envContentFail : FetchEnv :=
  { envOk with content := Except.error Exn.other }

/-! ## Claims -/

/-- C1, as stated, is false: when `getBrowser()` rejects, the exception
propagates out of `getPageContent` (the acquisition runs before the
`try`), so the call does not return a status-500 result. -/
theorem C1_counterexample :
    getPageContent envAcquireFail = (FetchOutcome.raised Exn.other, ⟨false, false, 0⟩) := by
  decide

/-- C1 (amended): once browser acquisition, context creation and page
creation have succeeded, `getPageContent` is total at its boundary: every
further failure mode is mapped to a structured result and no exception
propagates to the caller. -/
theorem C1_total_after_page_creation (env : FetchEnv)
    (h1 : env.acquire = none) (h2 : env.createContext = none)
    (h3 : env.newPage = none) :
    ∃ r, (getPageContent env).1 = FetchOutcome.result r := by
  refine ⟨tryBody env, ?_⟩
  simp [getPageContent, h1, h2, h3]

/-- C1 witness: the amended totality theorem applied to a concrete
successful environment. -/
theorem C1_total_after_page_creation_witness :
    ∃ r, (getPageContent envOk).1 = FetchOutcome.result r :=
  C1_total_after_page_creation envOk rfl rfl rfl

/-- C2, as stated, is false: when `context.newPage()` rejects, the
browsing context has already been created, but `page.close()` never runs
(the creation happens before the `try`/`finally`), the call unwinds with
the exception, and the context is leaked. -/
theorem C2_counterexample :
    getPageContent envNewPageFail = (FetchOutcome.raised Exn.other, ⟨true, false, 0⟩) := by
  decide

/-- C2 (amended): whenever page creation succeeds, the page of the
per-request isolated context is closed exactly once (the `finally` block)
before the structured result is produced, on the success path, every
classified-failure path, and every exception-classified path; only when
page creation itself fails is the already-created context left unclosed. -/
theorem C2_close_exactly_once (env : FetchEnv)
    (h1 : env.acquire = none) (h2 : env.createContext = none)
    (h3 : env.newPage = none) :
    getPageContent env = (FetchOutcome.result (tryBody env), ⟨true, true, 1⟩) := by
  simp [getPageContent, h1, h2, h3]

/-- C2 witness: the amended close-exactly-once theorem at a concrete
successful environment. -/
theorem C2_close_exactly_once_witness :
    getPageContent envOk = (FetchOutcome.result (tryBody envOk), ⟨true, true, 1⟩) :=
  C2_close_exactly_once envOk rfl rfl rfl

/-- C3 (confirmed): when navigation yields a response and the serialized
content contains the challenge marker, or the response status is 403, the
result has status 403, still carries the HTML, the challenge error
message, and the current page URL — whatever the actual response status. -/
theorem C3_challenge_classification (env : FetchEnv) (st : Nat) (html : String)
    (h1 : env.acquire = none) (h2 : env.createContext = none)
    (h3 : env.newPage = none) (h4 : env.setup = none)
    (hg : env.goto = Except.ok (some st)) (hc : env.content = Except.ok html)
    (hmark : strIncludes html challengeMarker = true ∨ st = 403) :
    (getPageContent env).1 = FetchOutcome.result
      { html := some html, status := HttpStatus.FORBIDDEN,
        error := some challengeMsg, finalUrl := some env.pageUrl } := by
  have hb : (strIncludes html challengeMarker || st == 403) = true := by
    rcases hmark with hm | hm
    · simp [hm]
    · simp [hm]
  simp [getPageContent, h1, h2, h3, tryBody, h4, hg, hc, hb, pageUrlCall]

/-- C3 witness: a 200 response whose content contains the marker is
classified 403 with the HTML kept. -/
theorem C3_challenge_classification_witness :
    (getPageContent envChallenge).1 = FetchOutcome.result
      { html := some ("<html>px-captcha challenge</html>"),
        status := HttpStatus.FORBIDDEN, error := some challengeMsg,
        finalUrl := some ("https://example.test/ok") } :=
  C3_challenge_classification envChallenge 200 ("<html>px-captcha challenge</html>")
    rfl rfl rfl rfl rfl rfl (Or.inl (by decide))

/-- C4 (confirmed): when navigation completes with no response object, the
result is status 502, no HTML, the no-response error message, and the
current page URL. -/
theorem C4_no_response (env : FetchEnv)
    (h1 : env.acquire = none) (h2 : env.createContext = none)
    (h3 : env.newPage = none) (h4 : env.setup = none)
    (hg : env.goto = Except.ok none) :
    (getPageContent env).1 = FetchOutcome.result
      { html := none, status := HttpStatus.BAD_GATEWAY,
        error := some noResponseMsg, finalUrl := some env.pageUrl } := by
  simp [getPageContent, h1, h2, h3, tryBody, h4, hg, pageUrlCall]

/-- C4 witness: the no-response theorem at a concrete environment. -/
theorem C4_no_response_witness :
    (getPageContent envNoResponse).1 = FetchOutcome.result
      { html := none, status := HttpStatus.BAD_GATEWAY,
        error := some noResponseMsg,
        finalUrl := some ("https://example.test/ok") } :=
  C4_no_response envNoResponse rfl rfl rfl rfl rfl

/-- C5 (confirmed): when navigation rejects with a `TimeoutError`, the
result is status 504, no HTML, the timeout error message — which contains
the configured timeout duration in seconds — and the best-known current
URL (falling back to the requested URL under `??`). -/
theorem C5_timeout (env : FetchEnv)
    (h1 : env.acquire = none) (h2 : env.createContext = none)
    (h3 : env.newPage = none) (h4 : env.setup = none)
    (hg : env.goto = Except.error Exn.timeout) :
    (getPageContent env).1 = FetchOutcome.result
      { html := none, status := HttpStatus.GATEWAY_TIMEOUT,
        error := some timeoutMsg, finalUrl := some env.pageUrl }
    ∧ strIncludes timeoutMsg (toString (NETWORK_IDLE_TIMEOUT / 1000) ++ ("s")) = true := by
  constructor
  · simp [getPageContent, h1, h2, h3, tryBody, h4, hg, catchClause,
      nullishCoalesce, pageUrlCall]
  · decide

/-- C5 witness: the timeout theorem at a concrete environment. -/
theorem C5_timeout_witness :
    (getPageContent envTimeout).1 = FetchOutcome.result
      { html := none, status := HttpStatus.GATEWAY_TIMEOUT,
        error := some timeoutMsg,
        finalUrl := some ("https://example.test/ok") }
    ∧ strIncludes timeoutMsg (toString (NETWORK_IDLE_TIMEOUT / 1000) ++ ("s")) = true :=
  C5_timeout envTimeout rfl rfl rfl rfl rfl

/-- C6 (confirmed): the interception decision applies its rules in order —
a URL matching the anti-bot init-script pattern is aborted; otherwise a
URL containing a configured tracking-domain substring is aborted;
otherwise the request continues unmodified. -/
theorem C6_intercept_order (url : String) :
    (pxTest url = true → interceptDecision url = RequestAction.abort)
    ∧ (pxTest url = false →
        BLOCKED_TRACKING_DOMAINS.any (fun d => strIncludes url d) = true →
        interceptDecision url = RequestAction.abort)
    ∧ (pxTest url = false →
        BLOCKED_TRACKING_DOMAINS.any (fun d => strIncludes url d) = false →
        interceptDecision url = RequestAction.cont) := by
  refine ⟨fun h => ?_, fun h1 h2 => ?_, fun h1 h2 => ?_⟩ <;>
    simp [interceptDecision, *]

/-- C6 witness: one URL per branch — an init-script URL aborts (also in
its upper-case variant, per the regex `i` flag), a tracker URL aborts, a
plain URL continues. -/
theorem C6_intercept_order_witness :
    interceptDecision ("https://cdn.example.test/AB12CD34/init.js") = RequestAction.abort
    ∧ interceptDecision ("https://cdn.example.test/A1/INIT.JS") = RequestAction.abort
    ∧ interceptDecision ("https://www.googletagmanager.com/gtm.js") = RequestAction.abort
    ∧ interceptDecision ("https://example.test/ok") = RequestAction.cont :=
  ⟨(C6_intercept_order ("https://cdn.example.test/AB12CD34/init.js")).1 (by decide),
   (C6_intercept_order ("https://cdn.example.test/A1/INIT.JS")).1 (by decide),
   (C6_intercept_order ("https://www.googletagmanager.com/gtm.js")).2.1 (by decide) (by decide),
   (C6_intercept_order ("https://example.test/ok")).2.2 (by decide) (by decide)⟩

/-- C7 (confirmed): `getBrowser` reuse — a stored handle reporting itself
connected is returned unchanged with no launch; an absent or disconnected
handle triggers a launch whose fresh handle is stored and returned, not
the stale one. -/
theorem C7_getBrowser_reuse (stored : Option BrowserHandle) (fresh : BrowserHandle) :
    (∀ b, stored = some b → b.connected = true →
      getBrowser stored fresh = { returned := b, stored := some b, launched := false })
    ∧ (stored = none →
      getBrowser stored fresh = { returned := fresh, stored := some fresh, launched := true })
    ∧ (∀ b, stored = some b → b.connected = false →
      getBrowser stored fresh = { returned := fresh, stored := some fresh, launched := true }
      ∧ (fresh ≠ b → (getBrowser stored fresh).returned ≠ b)) := by
  refine ⟨?_, ?_, ?_⟩
  · intro b hb hc
    subst hb
    simp [getBrowser, hc]
  · intro h
    subst h
    simp [getBrowser]
  · intro b hb hc
    subst hb
    refine ⟨by simp [getBrowser, hc], fun hne => ?_⟩
    simpa [getBrowser, hc] using hne

/-- C7 witness: concrete handles for the connected, absent, and
disconnected cases. -/
theorem C7_getBrowser_reuse_witness :
    getBrowser (some ⟨1, true⟩) ⟨3, true⟩
      = { returned := ⟨1, true⟩, stored := some ⟨1, true⟩, launched := false }
    ∧ getBrowser none ⟨3, true⟩
      = { returned := ⟨3, true⟩, stored := some ⟨3, true⟩, launched := true }
    ∧ (getBrowser (some ⟨2, false⟩) ⟨3, true⟩
        = { returned := ⟨3, true⟩, stored := some ⟨3, true⟩, launched := true }
       ∧ (getBrowser (some ⟨2, false⟩) ⟨3, true⟩).returned ≠ ⟨2, false⟩) :=
  ⟨(C7_getBrowser_reuse (some ⟨1, true⟩) ⟨3, true⟩).1 ⟨1, true⟩ rfl rfl,
   (C7_getBrowser_reuse none ⟨3, true⟩).2.1 rfl,
   ((C7_getBrowser_reuse (some ⟨2, false⟩) ⟨3, true⟩).2.2 ⟨2, false⟩ rfl rfl).1,
   ((C7_getBrowser_reuse (some ⟨2, false⟩) ⟨3, true⟩).2.2 ⟨2, false⟩ rfl rfl).2 (by decide)⟩

/-- C8, as stated, is false: a marker-free response with status 500 is
passed through by the success branch, so the result carries status 500 —
one of the statuses the claim calls non-success — with no error field. -/
theorem C8_counterexample :
    (getPageContent envPass500).1 = FetchOutcome.result
      { html := some ("<html>hello</html>"), status := 500,
        error := none, finalUrl := some ("https://example.test/ok") } := by
  decide

/-- C8 (amended): the error field is populated exactly when the result is
produced by a failure-classification branch (challenge 403, no-response
502, timeout 504, unclassified 500); the success branch passes the real
response status through unrestricted, so a status such as 500 can also
occur with no error. -/
theorem C8_error_iff_failure_branch (env : FetchEnv)
    (h1 : env.acquire = none) (h2 : env.createContext = none)
    (h3 : env.newPage = none) :
    (getPageContent env).1 = FetchOutcome.result (tryBody env)
    ∧ (tryBody env).error.isSome = failureBranch env := by
  constructor
  · simp [getPageContent, h1, h2, h3]
  · unfold tryBody failureBranch tryExn
    cases hs : env.setup with
    | some e => cases e <;> simp [catchClause]
    | none =>
      cases hg : env.goto with
      | error e => cases e <;> simp [catchClause]
      | ok o =>
        cases o with
        | none => simp
        | some st =>
          cases hc : env.content with
          | error e => cases e <;> simp [catchClause]
          | ok html =>
            cases hb : (strIncludes html challengeMarker || st == 403) <;> simp [hb]

/-- C8 witness: the amended error-iff-failure theorem at a concrete
successful environment. -/
theorem C8_error_iff_failure_branch_witness :
    (getPageContent envOk).1 = FetchOutcome.result (tryBody envOk)
    ∧ (tryBody envOk).error.isSome = failureBranch envOk :=
  C8_error_iff_failure_branch envOk rfl rfl rfl

/-- C9, as stated, is false: navigation can produce a response object and
`page.content()` still reject, in which case the catch branch returns a
result with no HTML even though a response was received. -/
theorem C9_counterexample :
    envContentFail.goto = Except.ok (some 200)
    ∧ (getPageContent envContentFail).1 = FetchOutcome.result
        { html := none, status := 500, error := some internalMsg,
          finalUrl := some ("https://example.test/ok") } :=
  ⟨rfl, by decide⟩

/-- C9 (amended): html is a string exactly when the setup steps succeed,
navigation produces a response, and the content is serialized successfully
(the success and 403 challenge branches); otherwise html is null; and the
finalUrl field is present in every result, in particular whenever a
response was received. -/
theorem C9_html_iff_content_serialized (env : FetchEnv)
    (h1 : env.acquire = none) (h2 : env.createContext = none)
    (h3 : env.newPage = none) :
    (getPageContent env).1 = FetchOutcome.result (tryBody env)
    ∧ ((tryBody env).html.isSome = true ↔
        env.setup = none ∧ ∃ st html,
          env.goto = Except.ok (some st) ∧ env.content = Except.ok html)
    ∧ (tryBody env).finalUrl.isSome = true := by
  refine ⟨by simp [getPageContent, h1, h2, h3], ?_, ?_⟩ <;>
  · unfold tryBody
    cases hs : env.setup with
    | some e => cases e <;> simp [catchClause]
    | none =>
      cases hg : env.goto with
      | error e => cases e <;> simp [catchClause]
      | ok o =>
        cases o with
        | none => simp [pageUrlCall]
        | some st =>
          cases hc : env.content with
          | error e => cases e <;> simp [catchClause]
          | ok html =>
            cases hb : (strIncludes html challengeMarker || st == 403) <;>
              simp [hb, pageUrlCall]

/-- C9 witness: the amended html-presence theorem at a concrete
successful environment. -/
theorem C9_html_iff_content_serialized_witness :
    (getPageContent envOk).1 = FetchOutcome.result (tryBody envOk)
    ∧ ((tryBody envOk).html.isSome = true ↔
        envOk.setup = none ∧ ∃ st html,
          envOk.goto = Except.ok (some st) ∧ envOk.content = Except.ok html)
    ∧ (tryBody envOk).finalUrl.isSome = true :=
  C9_html_iff_content_serialized envOk rfl rfl rfl

/-- C10 (confirmed): the interception decision is a total deterministic
function of the request URL alone — the handler issues exactly one action
per request, that action is the decision on the URL, and equal URLs give
equal decisions. -/
theorem C10_decision_total_deterministic (u1 u2 : String) :
    (∃ a, handlerCalls u1 = [a])
    ∧ handlerCalls u1 = [interceptDecision u1]
    ∧ (u1 = u2 → interceptDecision u1 = interceptDecision u2) := by
  have h : handlerCalls u1 = [interceptDecision u1] := by
    unfold handlerCalls interceptDecision
    split
    · rfl
    · split
      · rfl
      · rfl
  exact ⟨⟨interceptDecision u1, h⟩, h, fun he => he ▸ rfl⟩

/-- C10 witness: the totality/determinism theorem at one concrete URL. -/
theorem C10_decision_total_deterministic_witness :
    (∃ a, handlerCalls ("https://example.test/a") = [a])
    ∧ handlerCalls ("https://example.test/a")
        = [interceptDecision ("https://example.test/a")]
    ∧ interceptDecision ("https://example.test/a")
        = interceptDecision ("https://example.test/a") :=
  ⟨(C10_decision_total_deterministic ("https://example.test/a") ("https://example.test/a")).1,
   (C10_decision_total_deterministic ("https://example.test/a") ("https://example.test/a")).2.1,
   (C10_decision_total_deterministic ("https://example.test/a") ("https://example.test/a")).2.2 rfl⟩
